import Mathlib

/-!
Shallow embedding of the rustly header-only library (option.h, result.h,
panic.h).

`Option<T>` wraps a `std::optional<T>`. The library singles out the payload
type `std::monostate` as an "untyped empty marker": `is_some()` is
`!std::is_same<T, std::monostate>::value && has_value()`, a type-level test,
so the embedding splits `Option<T>` into two Lean types:

* `rustly.Opt α` — `Option<T>` for a payload type `T` other than
  `std::monostate`; here `is_some()` reduces to `has_value()`.
* `rustly.OptM` — `Option<std::monostate>`; the stored `std::optional
  <std::monostate>` may itself be engaged (the Option can be constructed
  from an actual monostate payload), modelled as an `Option Unit` field,
  but `is_some()` is constantly `false` because the `is_same` test fails.

`Result<T, E>` wraps a `std::variant<T, E>` (index 0 = Ok, index 1 = Err),
modelled as the inductive `rustly.Res α ε`.

The C++ equality operator of `Option` is a compile-time overload set; each
overload is embedded as its own Lean function (`eqWith` for the
equality-comparable overload, with the cross-type comparison passed in as
`cmp`; `eqIncomp` for the fallback overload on non-comparable payload types;
`eqMarker` / `OptM.eqMarker` / `OptM.eqTyped` for the overloads involving
the monostate marker).

`__panic_impl` (panic.h) formats `"panicked at <file>:<line>\n<message>\n"`,
writes it to stderr and calls `std::abort`. Panicking operations are
embedded as functions into `Except String`, where `Except.error s` models
"the process aborted after emitting diagnostic `s`" and `Except.ok v`
models a normal return of `v`.
-/

namespace rustly

/-- std::source_location as used by the panic machinery: the caller's file
name and line number (`current()` is evaluated at the call site because it
is a defaulted argument of the unwrap/expect family). -/
structure SourceLocation where
  file : String
  line : Nat
deriving DecidableEq, Repr

/-- __panic_impl (panic.h lines 8-17): builds the diagnostic
`"panicked at <file>:<line>\n" ++ <formatted message> ++ "\n"`, writes it to
stderr and aborts. The embedding returns the emitted diagnostic string. -/
def panic_impl (loc : SourceLocation) (body : String) : String :=
  "panicked at " ++ loc.file ++ ":" ++ toString loc.line ++ "\n" ++ body ++ "\n"

/-- Option<T> for T ≠ std::monostate (option.h lines 13-550): a private
base `std::optional<T>`, embedded as its engaged/empty state. -/
structure Opt (α : Type) where
  val : Option α
deriving DecidableEq, Repr

/-- Option<std::monostate>, the untyped empty marker type. Its base
`std::optional<std::monostate>` can be engaged (when constructed from a
monostate value), so the state is kept as an `Option Unit`. -/
structure OptM where
  val : Option Unit
deriving DecidableEq, Repr

/-- Option::is_some (option.h lines 64-71):
`!std::is_same<T, std::monostate>::value && this->has_value()`. For
T ≠ monostate the first conjunct is true, leaving `has_value()`. -/
def Opt.is_some {α : Type} (o : Opt α) : Bool := o.val.isSome

/-- Option::is_none (option.h lines 79-86): `!is_some()`. -/
def Opt.is_none {α : Type} (o : Opt α) : Bool := !o.is_some

/-- Option<std::monostate>::is_some: the `is_same` conjunct is false, so
the whole conjunction is constantly false, whatever `has_value()` says. -/
def OptM.is_some (_ : OptM) : Bool := false

/-- Option<std::monostate>::is_none: `!is_some()`, hence constantly true. -/
def OptM.is_none (o : OptM) : Bool := !o.is_some

/-- Option::operator==(const Option<std::monostate>&) (option.h lines
38-42): "Monostate is always None, only equal if we are too". -/
def Opt.eqMarker {α : Type} (o : Opt α) (_ : OptM) : Bool := o.is_none

/-- Option::operator==(const Option<U>&) for equality-comparable T, U
(option.h lines 44-55): unequal when exactly one side is none, else equal
when both are none, else the payloads are compared. The cross-type payload
comparison `T == U` is passed in as `cmp`. The fallback match arm is
unreachable: after the guard, not-both-none forces both engaged. -/
def Opt.eqWith {α β : Type} (cmp : α → β → Bool) (a : Opt α) (b : Opt β) : Bool :=
  if a.is_none != b.is_none then false
  else
    (a.is_none && b.is_none) ||
      match a.val, b.val with
      | some x, some y => cmp x y
      | _, _ => false

/-- Option::operator==(const Option<U>&) fallback overload for payload
types that are not equality-comparable (option.h lines 57-62):
`(is_none() && rhs.is_none()) || false`. -/
def Opt.eqIncomp {α β : Type} (a : Opt α) (b : Opt β) : Bool :=
  (a.is_none && b.is_none) || false

/-- operator== between two Option<std::monostate> values: overload
resolution picks the monostate overload (option.h lines 38-42), returning
`is_none()`, which is constantly true for the marker type. -/
def OptM.eqMarker (o : OptM) (_ : OptM) : Bool := o.is_none

/-- operator== of Option<std::monostate> against an Option<U> with
U ≠ monostate: monostate is not equality-comparable with U, so the
fallback overload (option.h lines 57-62) applies at T = monostate. -/
def OptM.eqTyped {β : Type} (o : OptM) (b : Opt β) : Bool :=
  (o.is_none && b.is_none) || false

/-- Some(t) (option.h lines 793-798): an engaged Option. -/
def Some {α : Type} (t : α) : Opt α := ⟨some t⟩

/-- None<T>() with an explicit payload type (option.h lines 807-812). -/
def NoneT (α : Type) : Opt α := ⟨none⟩

/-- None() with the defaulted payload type std::monostate — the untyped
empty marker value (option.h lines 807-812). -/
def NoneM : OptM := ⟨none⟩

/-- Option::map (option.h lines 200-205):
`is_none() ? Option<U>() : Option<U>(f(value()))`; for T ≠ monostate the
`is_none()` discriminant is exactly whether the optional is empty. -/
def Opt.map {α β : Type} (f : α → β) (o : Opt α) : Opt β :=
  match o.val with
  | none => ⟨none⟩
  | some x => ⟨some (f x)⟩

/-- Option::and_then (option.h lines 349-354):
`is_none() ? Option<U>() : f(value())`. -/
def Opt.and_then {α β : Type} (f : α → Opt β) (o : Opt α) : Opt β :=
  match o.val with
  | none => ⟨none⟩
  | some x => f x

/-- Option<std::monostate>::map specialization (option.h lines 596-603):
returns `Option<U>()` without touching `f` ([[maybe_unused]]). -/
def OptM.map {γ β : Type} (_ : γ → β) (_ : OptM) : Opt β := ⟨none⟩

/-- Option<std::monostate>::and_then specialization (option.h lines
670-676): returns `Option<U>()` without invoking `f`. -/
def OptM.and_then {γ β : Type} (_ : γ → Opt β) (_ : OptM) : Opt β := ⟨none⟩

/-- Result<T, E> (result.h lines 14-506): a `std::variant<T, E>`; variant
index 0 holds the Ok payload, index 1 the Err payload. -/
inductive Res (α ε : Type) where
  | Ok : α → Res α ε
  | Err : ε → Res α ε
deriving DecidableEq, Repr

/-- Result::is_ok (result.h lines 37-41): `index() == 0`. -/
def Res.is_ok {α ε : Type} : Res α ε → Bool
  | .Ok _ => true
  | .Err _ => false

/-- Result::is_err (result.h lines 72-76): `index() == 1`. -/
def Res.is_err {α ε : Type} : Res α ε → Bool
  | .Ok _ => false
  | .Err _ => true

/-- Result::ok (result.h lines 109-112):
`is_ok() ? Option<T>(get<0>) : Option<T>()`. -/
def Res.ok {α ε : Type} : Res α ε → Opt α
  | .Ok v => ⟨some v⟩
  | .Err _ => ⟨none⟩

/-- Result::err (result.h lines 126-129):
`is_err() ? Option<E>(get<1>) : Option<E>()`. -/
def Res.err {α ε : Type} : Res α ε → Opt ε
  | .Ok _ => ⟨none⟩
  | .Err e => ⟨some e⟩

/-- Result::map (result.h lines 146-150): applies `f` to an Ok payload,
re-tags an Err payload into the new Result's error channel unchanged. -/
def Res.map {α β ε : Type} (f : α → β) : Res α ε → Res β ε
  | .Ok v => .Ok (f v)
  | .Err e => .Err e

/-- Result::map_err (result.h lines 216-227): leaves an Ok payload
untouched (re-tagged at in_place_index 0), applies `op` to an Err payload
(in_place_index 1). -/
def Res.map_err {α ε φ : Type} (op : ε → φ) : Res α ε → Res α φ
  | .Ok v => .Ok v
  | .Err e => .Err (op e)

/-- Option::ok_or (option.h lines 273-278):
`is_none() ? Result<T,E>(err) : Result<T,E>(value())` — the variant
converting constructor tags `err` at index 1 and the payload at index 0. -/
def Opt.ok_or {α ε : Type} (err : ε) (o : Opt α) : Res α ε :=
  match o.val with
  | none => .Err err
  | some v => .Ok v

/-- Option::ok_or_else (option.h lines 291-297):
`is_none() ? Result<T,E>(err()) : Result<T,E>(value())`. -/
def Opt.ok_or_else {α ε : Type} (errf : Unit → ε) (o : Opt α) : Res α ε :=
  match o.val with
  | none => .Err (errf ())
  | some v => .Ok v

/-- Option::unwrap (option.h lines 128-136): returns the payload if
engaged, otherwise panics with the fixed message. `Except.error` carries
the diagnostic __panic_impl emits before aborting. -/
def Opt.unwrap {α : Type} (loc : SourceLocation) (o : Opt α) : Except String α :=
  match o.val with
  | some v => .ok v
  | none => .error (panic_impl loc "called `Option::unwrap()` on a `None` value")

/-- Result::expect (result.h lines 243-251): returns the Ok payload,
otherwise panics with format `"{}: {}"` applied to the caller's message
and `std::to_string` of the Err payload; the stringification supplied by
the ToString concept is passed in as `disp`. -/
def Res.expect {α ε : Type} (disp : ε → String) (loc : SourceLocation)
    (msg : String) : Res α ε → Except String α
  | .Ok v => .ok v
  | .Err e => .error (panic_impl loc (msg ++ ": " ++ disp e))

/-- Option::and_b (option.h lines 323-328):
`is_none() ? Option<U>() : optb`. -/
def Opt.and_b {α β : Type} (o : Opt α) (optb : Opt β) : Opt β :=
  if o.is_none then ⟨none⟩ else optb

/-- Option<std::monostate>::and_b — the generic template instantiated at
T = monostate (no specialization exists; the body never reads the payload):
`is_none() ? Option<U>() : optb` with `is_none()` constantly true. -/
def OptM.and_b {β : Type} (o : OptM) (optb : Opt β) : Opt β :=
  if o.is_none then ⟨none⟩ else optb

/-- Option::xor_b, same-payload-type overload (option.h lines 503-518). -/
def Opt.xor_b {α : Type} (a : Opt α) (optb : Opt α) : Opt α :=
  if a.is_some && optb.is_none then a
  else if a.is_none && optb.is_some then optb
  else ⟨none⟩

/-- Option::xor_b(Option<std::monostate>) overload (option.h lines
541-546): `is_some() ? *this : Option<T>()`. -/
def Opt.xor_b_marker {α : Type} (a : Opt α) (_ : OptM) : Opt α :=
  if a.is_some then a else ⟨none⟩

/-- Option<std::monostate>::xor_b<U> specialization (option.h lines
779-785): `optb.is_some() ? optb : Option<U>()`. -/
def OptM.xor_b {β : Type} (_ : OptM) (optb : Opt β) : Opt β :=
  if optb.is_some then optb else ⟨none⟩

/-- An empty Opt has an empty underlying optional. -/
theorem Opt.val_of_none {α : Type} {o : Opt α} (h : o.is_none = true) :
    o.val = none := by
  cases o with
  | mk v =>
    cases v with
    | none => rfl
    | some x => simp [Opt.is_none, Opt.is_some] at h

/-- C1: Option equality is a total trichotomy: two empty Options are equal
regardless of their declared payload types (including when one side is the
untyped monostate marker); an empty Option and an occupied Option are never
equal (in either overload, and against the marker); two occupied Options
compare by the payload comparison when the payload types are comparable,
and are simply unequal (the fallback overload returns false, no error) when
they are not. -/
theorem option_eq_trichotomy {α β : Type} (cmp : α → β → Bool) :
    (∀ (a : Opt α) (b : Opt β), a.is_none = true → b.is_none = true →
      Opt.eqWith cmp a b = true ∧ Opt.eqIncomp a b = true) ∧
    (∀ (a : Opt α) (m : OptM), a.is_none = true → Opt.eqMarker a m = true) ∧
    (∀ (m : OptM) (b : Opt β), b.is_none = true → OptM.eqTyped m b = true) ∧
    (∀ (m m2 : OptM), OptM.eqMarker m m2 = true) ∧
    (∀ (x : α) (b : Opt β), b.is_none = true →
      Opt.eqWith cmp (Some x) b = false ∧ Opt.eqIncomp (Some x) b = false) ∧
    (∀ (a : Opt α) (y : β), a.is_none = true →
      Opt.eqWith cmp a (Some y) = false ∧ Opt.eqIncomp a (Some y) = false) ∧
    (∀ (x : α) (m : OptM), Opt.eqMarker (Some x) m = false) ∧
    (∀ (x : α) (y : β), Opt.eqWith cmp (Some x) (Some y) = cmp x y ∧
      Opt.eqIncomp (Some x) (Some y) = false) := by
  refine ⟨?_, ?_, ?_, ?_, ?_, ?_, ?_, ?_⟩
  · intro a b ha hb
    obtain ⟨av⟩ := a; obtain ⟨bv⟩ := b
    cases av <;> cases bv <;>
      simp_all [Opt.eqWith, Opt.eqIncomp, Opt.is_none, Opt.is_some]
  · intro a m ha
    simp [Opt.eqMarker, ha]
  · intro m b hb
    simp [OptM.eqTyped, OptM.is_none, OptM.is_some, hb]
  · intro m m2
    simp [OptM.eqMarker, OptM.is_none, OptM.is_some]
  · intro x b hb
    obtain ⟨bv⟩ := b
    cases bv <;>
      simp_all [Opt.eqWith, Opt.eqIncomp, Some, Opt.is_none, Opt.is_some]
  · intro a y ha
    obtain ⟨av⟩ := a
    cases av <;>
      simp_all [Opt.eqWith, Opt.eqIncomp, Some, Opt.is_none, Opt.is_some]
  · intro x m
    simp [Opt.eqMarker, Some, Opt.is_none, Opt.is_some]
  · intro x y
    simp [Opt.eqWith, Opt.eqIncomp, Some, Opt.is_none, Opt.is_some]

/-- Witness for C1 at concrete inputs: two empty Nat Options are equal in
both overloads. -/
theorem option_eq_trichotomy_witness :
    Opt.eqWith (fun x y : Nat => x == y) (NoneT Nat) (NoneT Nat) = true ∧
    Opt.eqIncomp (NoneT Nat) (NoneT Nat) = true :=
  (option_eq_trichotomy (fun x y : Nat => x == y)).1 (NoneT Nat) (NoneT Nat)
    rfl rfl

/-- C2: a monostate-typed Option never reports occupied: for every
Option<std::monostate> value — including one whose underlying optional is
engaged because it was constructed from an actual monostate payload —
`is_some()` is false, `is_none()` is true, and it compares equal to the
untyped marker, to any other monostate Option, and to any empty typed
Option (and any empty typed Option compares equal to it). -/
theorem marker_never_some (m : OptM) :
    m.is_some = false ∧ m.is_none = true ∧
    OptM.eqMarker m NoneM = true ∧
    (∀ (m2 : OptM), OptM.eqMarker m m2 = true) ∧
    (∀ (β : Type) (b : Opt β), b.is_none = true → OptM.eqTyped m b = true) ∧
    (∀ (β : Type) (b : Opt β), b.is_none = true → Opt.eqMarker b m = true) := by
  refine ⟨rfl, rfl, rfl, fun m2 => rfl, ?_, ?_⟩
  · intro β b hb
    simp [OptM.eqTyped, OptM.is_none, OptM.is_some, hb]
  · intro β b hb
    simp [Opt.eqMarker, hb]

/-- Witness for C2: the monostate Option built from an engaged monostate
payload still reports empty and equals the empty Option<Nat>. -/
theorem marker_never_some_witness :
    OptM.is_some ⟨some ()⟩ = false ∧
    OptM.eqTyped ⟨some ()⟩ (NoneT Nat) = true :=
  ⟨(marker_never_some ⟨some ()⟩).1,
    (marker_never_some ⟨some ()⟩).2.2.2.2.1 Nat (NoneT Nat) rfl⟩

/-- C3: on the empty path, map and and_then never consult the supplied
function: for an empty typed Option the result of `map` / `and_then` is the
empty Option and is identical for any two functions, and the monostate
specializations of `map` / `and_then` yield the empty Option for every
marker value, again independently of the function. -/
theorem lazy_on_empty {α β γ : Type} (o : Opt α) (h : o.is_none = true)
    (fm gm : α → β) (f g : α → Opt β) (m : OptM)
    (km lm : γ → β) (kf lf : γ → Opt β) :
    o.map fm = NoneT β ∧ o.map fm = o.map gm ∧
    o.and_then f = NoneT β ∧ o.and_then f = o.and_then g ∧
    OptM.map km m = NoneT β ∧ OptM.map km m = OptM.map lm m ∧
    OptM.and_then kf m = NoneT β ∧ OptM.and_then kf m = OptM.and_then lf m := by
  have hv := Opt.val_of_none h
  obtain ⟨av⟩ := o
  simp only at hv
  subst hv
  exact ⟨rfl, rfl, rfl, rfl, rfl, rfl, rfl, rfl⟩

/-- Witness for C3 at concrete inputs: mapping two different functions over
the empty Option<Nat> gives the empty Option both times. -/
theorem lazy_on_empty_witness :
    Opt.map (fun n : Nat => n + 1) (NoneT Nat) = NoneT Nat ∧
    Opt.map (fun n : Nat => n + 1) (NoneT Nat) =
      Opt.map (fun n : Nat => n * 2) (NoneT Nat) :=
  ⟨(lazy_on_empty (NoneT Nat) rfl (fun n => n + 1) (fun n => n * 2)
      (fun n => Some n) (fun _ => NoneT Nat) NoneM
      (fun n : Nat => n) (fun n : Nat => n)
      (fun n : Nat => Some n) (fun n : Nat => Some n)).1,
    (lazy_on_empty (NoneT Nat) rfl (fun n => n + 1) (fun n => n * 2)
      (fun n => Some n) (fun _ => NoneT Nat) NoneM
      (fun n : Nat => n) (fun n : Nat => n)
      (fun n : Nat => Some n) (fun n : Nat => Some n)).2.1⟩

/-- C4: Option/Result round trip: `Some(x).ok_or(e)` is `Ok(x)`, hence
`Some(x).ok_or(e).ok()` is `Some(x)`; an empty Option's `ok_or(e)` is
`Err(e)` and its `ok_or_else(f)` is `Err(f())`; and `Result::ok` maps
`Ok(v)` back to `Some(v)` and discards an `Err` to the empty Option. -/
theorem ok_or_roundtrip {α ε : Type} (x : α) (e : ε) (ef : Unit → ε)
    (o : Opt α) (h : o.is_none = true) (v : α) (e2 : ε) :
    Opt.ok_or e (Some x) = Res.Ok x ∧
    Res.ok (Opt.ok_or e (Some x)) = Some x ∧
    Opt.ok_or e o = Res.Err e ∧
    Opt.ok_or_else ef o = Res.Err (ef ()) ∧
    Res.ok (Res.Ok v : Res α ε) = Some v ∧
    Res.ok (Res.Err e2 : Res α ε) = NoneT α := by
  have hv := Opt.val_of_none h
  obtain ⟨av⟩ := o
  simp only at hv
  subst hv
  exact ⟨rfl, rfl, rfl, rfl, rfl, rfl⟩

/-- Witness for C4 at concrete inputs. -/
theorem ok_or_roundtrip_witness :
    Opt.ok_or "e" (Some (5 : Nat)) = Res.Ok 5 ∧
    Res.ok (Opt.ok_or "e" (Some (5 : Nat))) = Some 5 ∧
    Opt.ok_or "e" (NoneT Nat) = Res.Err "e" :=
  ⟨(ok_or_roundtrip 5 "e" (fun _ => "f") (NoneT Nat) rfl 5 "e2").1,
    (ok_or_roundtrip 5 "e" (fun _ => "f") (NoneT Nat) rfl 5 "e2").2.1,
    (ok_or_roundtrip 5 "e" (fun _ => "f") (NoneT Nat) rfl 5 "e2").2.2.1⟩

/-- C5: Result map/map_err asymmetry: `map f` applies `f` only to an Ok
payload and passes an Err payload through unchanged in the error channel;
`map_err g` applies `g` only to an Err payload and passes an Ok payload
through unchanged; in particular `Ok(2).map_err(g) == Ok(2)` for any `g`,
and `Err(13).map_err(to_string) == Err("error code: 13")` with
`to_string(x) = "error code: " + str(x)`. -/
theorem res_map_map_err {α β ε φ : Type} (f : α → β) (g : ε → φ)
    (v : α) (e : ε) :
    Res.map f (Res.Ok v : Res α ε) = Res.Ok (f v) ∧
    Res.map f (Res.Err e : Res α ε) = Res.Err e ∧
    Res.map_err g (Res.Ok v : Res α ε) = Res.Ok v ∧
    Res.map_err g (Res.Err e : Res α ε) = Res.Err (g e) ∧
    Res.map_err g (Res.Ok 2 : Res Nat ε) = Res.Ok 2 ∧
    Res.map_err (fun x : Nat => "error code: " ++ toString x)
      (Res.Err 13 : Res Nat Nat) = Res.Err "error code: 13" :=
  ⟨rfl, rfl, rfl, rfl, rfl, rfl⟩

/-- C6: Option::unwrap fatal path: an occupied Option's unwrap returns the
payload normally (no abort), while an empty Option's unwrap aborts with the
diagnostic `"panicked at <file>:<line>\ncalled `Option::unwrap()` on a
`None` value\n"` — the caller's file and line in the first line, and a
second line matching `called .*unwrap.* on a .*None.* value`. -/
theorem option_unwrap_fatal {α : Type} (loc : SourceLocation) (o : Opt α)
    (x : α) :
    Opt.unwrap loc (Some x) = Except.ok x ∧
    (o.is_none = true →
      Opt.unwrap loc o = Except.error
        ("panicked at " ++ loc.file ++ ":" ++ toString loc.line ++ "\n" ++
          "called `Option::unwrap()` on a `None` value" ++ "\n")) := by
  refine ⟨rfl, ?_⟩
  intro h
  have hv := Opt.val_of_none h
  obtain ⟨av⟩ := o
  simp only at hv
  subst hv
  rfl

/-- Witness for C6 at a concrete call site. -/
theorem option_unwrap_fatal_witness :
    Opt.unwrap ⟨"main.cpp", 12⟩ (NoneT Nat) = Except.error
      ("panicked at " ++ "main.cpp" ++ ":" ++ toString (12 : Nat) ++ "\n" ++
        "called `Option::unwrap()` on a `None` value" ++ "\n") :=
  (option_unwrap_fatal ⟨"main.cpp", 12⟩ (NoneT Nat) 0).2 rfl

/-- C7: Result::expect fatal path with payload embedding: on an Ok it
returns the value without aborting; on an Err it aborts with the
`panicked at <file>:<line>` line followed by the caller's message, a
colon-space, and the display string of the Err payload — in particular
`Err(17).expect("msg")` emits `"panicked at <file>:<line>\nmsg: 17\n"`. -/
theorem result_expect_fatal {α ε : Type} (disp : ε → String)
    (loc : SourceLocation) (msg : String) (v : α) (e : ε) :
    Res.expect disp loc msg (Res.Ok v : Res α ε) = Except.ok v ∧
    Res.expect disp loc msg (Res.Err e : Res α ε) = Except.error
      ("panicked at " ++ loc.file ++ ":" ++ toString loc.line ++ "\n" ++
        (msg ++ ": " ++ disp e) ++ "\n") ∧
    Res.expect (fun n : Nat => toString n) loc "msg"
        (Res.Err 17 : Res Nat Nat) = Except.error
      ("panicked at " ++ loc.file ++ ":" ++ toString loc.line ++ "\n" ++
        "msg: 17" ++ "\n") := by
  refine ⟨rfl, rfl, ?_⟩
  have hs : "msg" ++ ": " ++ toString (17 : Nat) = "msg: 17" := rfl
  show Except.error (panic_impl loc ("msg" ++ ": " ++ toString (17 : Nat))) = _
  rw [hs]
  rfl

/-- C8: Option::and_b is the logical-AND short-circuit: empty first operand
gives empty; occupied first operand gives the second operand itself
(payload included), so `Some(2).and_b(Some("foo")) == Some("foo")`; the
untyped marker as first operand always gives empty, so
`None().and_b(Some("foo")) == None()`. -/
theorem option_and_b {α β : Type} (a : Opt α) (b b2 : Opt β) (m : OptM) :
    (a.is_none = true → Opt.and_b a b = NoneT β) ∧
    (a.is_some = true → Opt.and_b a b = b) ∧
    Opt.and_b (Some (2 : Nat)) (Some "foo") = Some "foo" ∧
    OptM.and_b m b2 = NoneT β ∧
    OptM.and_b NoneM (Some "foo") = NoneT String := by
  refine ⟨?_, ?_, rfl, rfl, rfl⟩
  · intro h
    simp [Opt.and_b, h, NoneT]
  · intro h
    simp [Opt.and_b, Opt.is_none, h]

/-- Witness for C8 at concrete inputs. -/
theorem option_and_b_witness :
    Opt.and_b (NoneT Nat) (Some "foo") = NoneT String ∧
    Opt.and_b (Some (2 : Nat)) (Some "foo") = Some "foo" :=
  ⟨(option_and_b (NoneT Nat) (Some "foo") (Some "foo") NoneM).1 rfl,
    (option_and_b (Some (2 : Nat)) (Some "foo") (Some "foo") NoneM).2.1 rfl⟩

/-- C9: Option::xor_b returns an occupied Option iff exactly one operand is
occupied, in which case it returns that occupied operand, and returns empty
otherwise — even when both payloads are equal (`Some(2).xor_b(Some(2)) ==
None()`); the untyped marker operand behaves as an empty operand on either
side (the marker overload and the monostate specialization). -/
theorem option_xor_b {α β : Type} (a b : Opt α) (m : OptM) (c : Opt β) :
    (a.is_some = true → b.is_none = true → Opt.xor_b a b = a) ∧
    (a.is_none = true → b.is_some = true → Opt.xor_b a b = b) ∧
    (a.is_some = true → b.is_some = true → Opt.xor_b a b = NoneT α) ∧
    (a.is_none = true → b.is_none = true → Opt.xor_b a b = NoneT α) ∧
    Opt.xor_b (Some (2 : Nat)) (Some 2) = NoneT Nat ∧
    (a.is_some = true → Opt.xor_b_marker a m = a) ∧
    (a.is_none = true → Opt.xor_b_marker a m = NoneT α) ∧
    (c.is_some = true → OptM.xor_b m c = c) ∧
    (c.is_none = true → OptM.xor_b m c = NoneT β) := by
  refine ⟨?_, ?_, ?_, ?_, rfl, ?_, ?_, ?_, ?_⟩
  · intro ha hb
    simp [Opt.xor_b, ha, hb]
  · intro ha hb
    have ha2 : a.is_some = false := by simpa [Opt.is_none] using ha
    simp [Opt.xor_b, Opt.is_none, ha2, hb]
  · intro ha hb
    have hb2 : b.is_none = false := by simp [Opt.is_none, hb]
    simp [Opt.xor_b, Opt.is_none, ha, hb, hb2, NoneT]
  · intro ha hb
    have ha2 : a.is_some = false := by simpa [Opt.is_none] using ha
    have hb2 : b.is_some = false := by simpa [Opt.is_none] using hb
    simp [Opt.xor_b, Opt.is_none, ha2, hb2, NoneT]
  · intro ha
    simp [Opt.xor_b_marker, ha]
  · intro ha
    have ha2 : a.is_some = false := by simpa [Opt.is_none] using ha
    simp [Opt.xor_b_marker, ha2, NoneT]
  · intro hc
    simp [OptM.xor_b, hc]
  · intro hc
    have hc2 : c.is_some = false := by simpa [Opt.is_none] using hc
    simp [OptM.xor_b, hc2, NoneT]

/-- Witness for C9 at concrete inputs. -/
theorem option_xor_b_witness :
    Opt.xor_b (Some (2 : Nat)) (NoneT Nat) = Some 2 ∧
    Opt.xor_b (NoneT Nat) (NoneT Nat) = NoneT Nat :=
  ⟨(option_xor_b (Some (2 : Nat)) (NoneT Nat) NoneM (NoneT Nat)).1 rfl rfl,
    (option_xor_b (NoneT Nat) (NoneT Nat) NoneM (NoneT Nat)).2.2.2.1
      rfl rfl⟩

/-- C10: every Result is in exactly one of the Ok and Err states: is_ok and
is_err are each other's negation; `ok()` is occupied exactly when the
Result is Ok, and then holds the T payload; `err()` is occupied exactly
when the Result is Err, and then holds the E payload. -/
theorem result_dichotomy {α ε : Type} (r : Res α ε) :
    r.is_ok = !r.is_err ∧
    (Res.ok r).is_some = r.is_ok ∧
    (Res.err r).is_some = r.is_err ∧
    (∀ v : α, (Res.Ok v : Res α ε).is_ok = true ∧
      Res.ok (Res.Ok v : Res α ε) = Some v) ∧
    (∀ e : ε, (Res.Err e : Res α ε).is_err = true ∧
      Res.err (Res.Err e : Res α ε) = Some e) := by
  cases r <;>
    exact ⟨rfl, rfl, rfl, fun v => ⟨rfl, rfl⟩, fun e => ⟨rfl, rfl⟩⟩

end rustly
